import Mathlib

/-!
The gceme demo service: instance snapshot builder and HTTP handlers.

A shallow embedding of `main.go`.

* A Go `string` or `[]byte` is a list of bytes, valid UTF-8 or not.
* Go's `error` interface is a value carrying the string its `Error()` method
  returns; a possibly-nil `error` is an `Option GoError`.
* A Go call returning `(T, error)` is a pair `T × Option GoError`: both
  components exist whatever the error is, exactly as in Go.
* The metadata client, the HTTP client, `encoding/json` and `html/template`
  are external collaborators whose results are inputs of the embedded
  functions.  Of net/http and httputil the embedding carries the behaviour
  the handlers rely on: header and body writing of the response writer
  (no body for a HEAD request) and the shape of a request dump.
* Which collaborators are invoked, and in which order, is recorded in an
  explicit call log threaded through the code.
-/

namespace Gceme

/-- One byte. -/
abbrev Byte := Fin 256

/-- Go `string` and `[]byte`: any sequence of bytes. -/
abbrev GoString := List Byte

/-- The bytes (UTF-8) of a string constant. -/
def lit (s : String) : GoString :=
  s.toList.flatMap (fun c => (String.utf8EncodeChar c).map (fun b => Fin.ofNat b.toNat))

/-- Go `error` value: `msg` is what the `Error()` method returns. -/
structure GoError where
  msg : GoString
deriving DecidableEq, Repr

/-- Method `Error()` of Go's `error` interface. -/
def GoError.Error (e : GoError) : GoString := e.msg

/-- Go `type Instance struct` (main.go lines 16-27).  `new(Instance)` and
`&Instance{}` are the all-empty record. -/
structure Instance where
  Id : GoString := []
  Name : GoString := []
  Hostname : GoString := []
  Zone : GoString := []
  Project : GoString := []
  InternalIP : GoString := []
  ExternalIP : GoString := []
  LBRequest : GoString := []
  ClientIP : GoString := []
  Error : GoString := []
deriving DecidableEq, Repr

/-- The seven metadata lookups `newInstance` hands to `assign`, named after
the functions of package `metadata`. -/
inductive Lookup where
  | InstanceID
  | Zone
  | InstanceName
  | Hostname
  | ProjectID
  | InternalIP
  | ExternalIP
deriving DecidableEq, Repr

/-- The metadata provider as seen by one run of `newInstance`: the answer of
`metadata.OnGCE()` and, for each lookup, the `(string, error)` pair it
returns when invoked. -/
structure Metadata where
  OnGCE : Bool
  get : Lookup → GoString × Option GoError

/-- Go `type assigner struct { err error }` (lines 122-124). -/
structure assigner where
  err : Option GoError := none
deriving DecidableEq, Repr

/-- Go `func (a *assigner) assign(getVal func() (string, error)) string`
(lines 126-135).  The pointer receiver becomes state passing; `calls` is the
log of lookups invoked so far, extended exactly when `getVal()` is called. -/
def assigner.assign (a : assigner) (calls : List Lookup) (md : Metadata) (getVal : Lookup) :
    GoString × assigner × List Lookup :=
  match a.err with
  | some _ => ([], a, calls)
  | none =>
    match md.get getVal with
    | (s, some err) => (s, { a with err := some err }, calls ++ [getVal])
    | (s, none) => (s, a, calls ++ [getVal])

/-- Go `func newInstance() *Instance` (lines 137-157), returning the instance
together with the log of lookups it invoked. -/
def newInstanceRun (md : Metadata) : Instance × List Lookup :=
  let i : Instance := {}
  if !md.OnGCE then
    ({ i with Error := lit "Not running on GCE" }, [])
  else
    let a : assigner := {}
    let calls : List Lookup := []
    let (v, a, calls) := a.assign calls md .InstanceID
    let i := { i with Id := v }
    let (v, a, calls) := a.assign calls md .Zone
    let i := { i with Zone := v }
    let (v, a, calls) := a.assign calls md .InstanceName
    let i := { i with Name := v }
    let (v, a, calls) := a.assign calls md .Hostname
    let i := { i with Hostname := v }
    let (v, a, calls) := a.assign calls md .ProjectID
    let i := { i with Project := v }
    let (v, a, calls) := a.assign calls md .InternalIP
    let i := { i with InternalIP := v }
    let (v, a, calls) := a.assign calls md .ExternalIP
    let i := { i with ExternalIP := v }
    match a.err with
    | some err => ({ i with Error := err.Error }, calls)
    | none => (i, calls)

/-- The snapshot returned by `newInstance()`. -/
def newInstance (md : Metadata) : Instance := (newInstanceRun md).1

/-- The lookups `newInstance()` invoked, in invocation order. -/
def newInstanceCalls (md : Metadata) : List Lookup := (newInstanceRun md).2

/-! ## Vocabulary of the statements -/

/-- Position of a lookup in the order id, zone, name, hostname, project,
internalIP, externalIP (counted from 1). -/
def Lookup.pos : Lookup → Nat
  | .InstanceID => 1
  | .Zone => 2
  | .InstanceName => 3
  | .Hostname => 4
  | .ProjectID => 5
  | .InternalIP => 6
  | .ExternalIP => 7

/-- The snapshot field that belongs to a lookup. -/
def Instance.field (i : Instance) : Lookup → GoString
  | .InstanceID => i.Id
  | .Zone => i.Zone
  | .InstanceName => i.Name
  | .Hostname => i.Hostname
  | .ProjectID => i.Project
  | .InternalIP => i.InternalIP
  | .ExternalIP => i.ExternalIP

/-- The fixed lookup order. -/
def lookupOrder : List Lookup :=
  [.InstanceID, .Zone, .InstanceName, .Hostname, .ProjectID, .InternalIP, .ExternalIP]

/-- A successful lookup result. -/
def okVal (s : String) : GoString × Option GoError := (lit s, none)

/-- A failed lookup result: the string returned next to the error, and the
message of the error. -/
def errVal (s msg : String) : GoString × Option GoError := (lit s, some ⟨lit msg⟩)

/-- A provider given by its platform answer and seven lookup results. -/
def Metadata.ofResults (onGCE : Bool) (id zone name hostname project internalIP externalIP :
    GoString × Option GoError) : Metadata where
  OnGCE := onGCE
  get
    | .InstanceID => id
    | .Zone => zone
    | .InstanceName => name
    | .Hostname => hostname
    | .ProjectID => project
    | .InternalIP => internalIP
    | .ExternalIP => externalIP

/-- Sample provider: on the platform, every lookup succeeds. -/
def mdAllOk : Metadata :=
  Metadata.ofResults true (okVal "42") (okVal "us-central1-f") (okVal "vm-1")
    (okVal "vm-1.c.demo.internal") (okVal "demo") (okVal "10.0.0.2") (okVal "203.0.113.7")

/-- Sample provider: off the platform; its lookups would succeed if asked. -/
def mdOffPlatform : Metadata :=
  Metadata.ofResults false (okVal "42") (okVal "us-central1-f") (okVal "vm-1")
    (okVal "vm-1.c.demo.internal") (okVal "demo") (okVal "10.0.0.2") (okVal "203.0.113.7")

/-- Sample provider: the third lookup (name) fails with an empty string. -/
def mdNameFails : Metadata :=
  Metadata.ofResults true (okVal "42") (okVal "us-central1-f") (errVal "" "metadata: timeout")
    (okVal "vm-1.c.demo.internal") (okVal "demo") (okVal "10.0.0.2") (okVal "203.0.113.7")

/-- Sample provider: the first lookup (id) fails and hands back a non-empty
string next to its error. -/
def mdIdFailsWithValue : Metadata :=
  Metadata.ofResults true (errVal "partial" "boom") (okVal "us-central1-f") (okVal "vm-1")
    (okVal "vm-1.c.demo.internal") (okVal "demo") (okVal "10.0.0.2") (okVal "203.0.113.7")

/-- Sample provider: the first lookup (id) fails with an error whose message
is the empty string. -/
def mdIdFailsSilently : Metadata :=
  Metadata.ofResults true (errVal "" "") (okVal "us-central1-f") (okVal "vm-1")
    (okVal "vm-1.c.demo.internal") (okVal "demo") (okVal "10.0.0.2") (okVal "203.0.113.7")

/-- Sample provider: the second lookup (zone) is the first to fail, with the
message `first`; the fifth lookup (project) would fail with an empty message
if it were invoked. -/
def mdZoneFailsProjectSilent : Metadata :=
  Metadata.ofResults true (okVal "42") (errVal "" "first") (okVal "vm-1")
    (okVal "vm-1.c.demo.internal") (errVal "" "") (okVal "10.0.0.2") (okVal "203.0.113.7")

/-! ## HTTP layer -/

/-- Constant `http.StatusOK`. -/
def StatusOK : Nat := 200

/-- Constant `http.StatusInternalServerError`. -/
def StatusInternalServerError : Nat := 500

/-- Constant `http.StatusServiceUnavailable`. -/
def StatusServiceUnavailable : Nat := 503

/-- An `io.ReadCloser` as seen by its one reader: the bytes a full read
yields and the error the read ends with (nil at a clean end of stream). -/
structure ReadCloser where
  data : GoString := []
  err : Option GoError := none
deriving DecidableEq, Repr

/-- Go `ioutil.ReadAll(rc)`. -/
def ReadAll (rc : ReadCloser) : GoString × Option GoError := (rc.data, rc.err)

/-- The parts of an incoming `*http.Request` that matter here: the method and
the request URI exactly as sent on the request line, what
`r.URL.RequestURI()` returns, and the body stream. -/
structure Request where
  Method : GoString
  RequestURI : GoString
  URL : GoString := []
  Body : ReadCloser := {}
deriving DecidableEq, Repr

/-- The parts of `*http.Response` that matter here. -/
structure Response where
  StatusCode : Nat
  Body : ReadCloser
deriving DecidableEq, Repr

/-- State of the `http.ResponseWriter` net/http hands to a handler:
`reqMethod` is the method of the request being answered, `body` the bytes
that go out to the client. -/
structure ResponseWriter where
  reqMethod : GoString
  wroteHeader : Bool := false
  status : Nat := 0
  body : GoString := []
deriving DecidableEq, Repr

/-- The writer a handler receives for request `r`. -/
def ResponseWriter.fresh (r : Request) : ResponseWriter := { reqMethod := r.Method }

/-- Go `bodyAllowedForStatus` of net/http: no body goes with an
informational, 204 or 304 status. -/
def bodyAllowedForStatus (status : Nat) : Bool :=
  if 100 ≤ status ∧ status ≤ 199 then false
  else if status = 204 then false
  else if status = 304 then false
  else true

/-- Go `w.WriteHeader(code)`: the first call fixes the status, later calls are
ignored by net/http. -/
def ResponseWriter.WriteHeader (w : ResponseWriter) (code : Nat) : ResponseWriter :=
  if w.wroteHeader then w else { w with wroteHeader := true, status := code }

/-- Go `w.Write(data)`: writes the header with 200 first when no header was
written yet; the data is dropped when the status allows no body and when the
request method is HEAD, and goes out to the client otherwise. -/
def ResponseWriter.Write (w : ResponseWriter) (data : GoString) : ResponseWriter :=
  let w := if w.wroteHeader then w else w.WriteHeader StatusOK
  if !bodyAllowedForStatus w.status then w
  else if w.reqMethod = lit "HEAD" then w
  else { w with body := w.body ++ data }

/-- What the client receives. -/
structure Reply where
  status : Nat
  body : GoString
deriving DecidableEq, Repr

/-- After the handler returns, net/http sends status 200 when the handler
never wrote a header. -/
def ResponseWriter.finish (w : ResponseWriter) : Reply :=
  let w := if w.wroteHeader then w else w.WriteHeader StatusOK
  { status := w.status, body := w.body }

/-- The parsed template `tpl` (its text, the constant `html`, is declared
outside main.go): for a data context, the pieces of text `tpl.Execute` writes
to its writer, in order, and the error it returns. -/
structure Template where
  Execute : Instance → List GoString × Option GoError

/-- Go `tpl.Execute(w, i)` acting on the response writer. -/
def Template.ExecuteOn (tpl : Template) (w : ResponseWriter) (i : Instance) :
    ResponseWriter × Option GoError :=
  ((tpl.Execute i).1.foldl ResponseWriter.Write w, (tpl.Execute i).2)

/-- The text `tpl.Execute` produces for a data context. -/
def Template.render (tpl : Template) (i : Instance) : GoString :=
  (tpl.Execute i).1.flatten

/-- Collaborators a frontend handler can invoke. -/
inductive Call where
  | Do
  | ReadAll
  | Unmarshal
  | Execute
  | Close
deriving DecidableEq, Repr

/-- What the frontend closures capture and call: the result of
`client.Do(req)` (net/http returns a non-nil response exactly when the error
is nil), `json.Unmarshal(data, i)` as the updated `*i` with the error, and
the template. -/
structure Frontend where
  Do : Except GoError Response
  Unmarshal : GoString → Instance → Instance × Option GoError
  tpl : Template

/-- Handler of `/` in `frontendMode` (lines 84-106), with the log of
collaborators it invoked. -/
def frontendMode_root (env : Frontend) (_r : Request) (w : ResponseWriter) :
    ResponseWriter × List Call :=
  let i : Instance := {}
  match env.Do with
  | .error err =>
    let w := w.WriteHeader StatusServiceUnavailable
    let w := w.Write (lit "Error: " ++ err.Error ++ lit "\n")
    (w, [.Do])
  | .ok resp =>
    match ReadAll resp.Body with
    | (_, some err) =>
      let w := w.WriteHeader StatusInternalServerError
      let w := w.Write (lit "Error: " ++ err.Error ++ lit "\n")
      (w, [.Do, .ReadAll, .Close])
    | (body, none) =>
      match env.Unmarshal body i with
      | (_, some err) =>
        let w := w.WriteHeader StatusInternalServerError
        let w := w.Write (lit "Error: " ++ err.Error ++ lit "\n")
        (w, [.Do, .ReadAll, .Unmarshal, .Close])
      | (i, none) =>
        let (w, _) := env.tpl.ExecuteOn w i
        (w, [.Do, .ReadAll, .Unmarshal, .Execute, .Close])

/-- Handler of `/healthz` in `frontendMode` (lines 108-118). -/
def frontendMode_healthz (env : Frontend) (_r : Request) (w : ResponseWriter) :
    ResponseWriter × List Call :=
  match env.Do with
  | .error err =>
    let w := w.WriteHeader StatusServiceUnavailable
    let w := w.Write (lit "Backend could not be connected to: " ++ err.Error)
    (w, [.Do])
  | .ok resp =>
    let _ := ReadAll resp.Body
    let w := w.WriteHeader StatusOK
    (w, [.Do, .ReadAll, .Close])

/-- Go `valueOrDefault` of httputil. -/
def valueOrDefault (value def0 : GoString) : GoString :=
  if value ≠ [] then value else def0

/-- Go `httputil.DumpRequest(r, true)` for an incoming request.  It first
drains the body and returns `nil` with the error when that read fails.
Otherwise the dump is the method (`GET` when empty), a space, the request URI
as sent (`r.URL.RequestURI()` when empty), and then `rest r body`: the
protocol version, the Host, Transfer-Encoding and header lines, the blank
line and the drained body, whose rendering is left to the parameter. -/
def DumpRequest (rest : Request → GoString → GoString) (r : Request) :
    GoString × Option GoError :=
  match ReadAll r.Body with
  | (_, some err) => ([], some err)
  | (body, none) =>
    let reqURI := if r.RequestURI = [] then r.URL else r.RequestURI
    (valueOrDefault r.Method (lit "GET") ++ lit " " ++ reqURI ++ rest r body, none)

/-- What the backend closure calls: the metadata provider, the part of
`httputil.DumpRequest` that renders what follows the request URI, and
`json.Marshal(i)` returning its bytes together with its error. -/
structure Backend where
  md : Metadata
  dumpRest : Request → GoString → GoString
  Marshal : Instance → GoString × Option GoError

/-- The snapshot the backend handler serializes (lines 58-60). -/
def backendMode_snapshot (env : Backend) (r : Request) : Instance :=
  let i := newInstance env.md
  let (raw, _) := DumpRequest env.dumpRest r
  { i with LBRequest := raw }

/-- Handler of `/` in `backendMode` (lines 57-63). -/
def backendMode_root (env : Backend) (r : Request) (w : ResponseWriter) : ResponseWriter :=
  let i := backendMode_snapshot env r
  let (resp, _) := env.Marshal i
  w.Write resp

/-- Reply of the frontend `/` handler to request `r`. -/
def frontendRootReply (env : Frontend) (r : Request) : Reply :=
  (frontendMode_root env r (ResponseWriter.fresh r)).1.finish

/-- Collaborators the frontend `/` handler invokes for request `r`. -/
def frontendRootCalls (env : Frontend) (r : Request) : List Call :=
  (frontendMode_root env r (ResponseWriter.fresh r)).2

/-- Reply of the frontend `/healthz` handler to request `r`. -/
def frontendHealthzReply (env : Frontend) (r : Request) : Reply :=
  (frontendMode_healthz env r (ResponseWriter.fresh r)).1.finish

/-- Reply of the backend `/` handler to request `r`. -/
def backendRootReply (env : Backend) (r : Request) : Reply :=
  (backendMode_root env r (ResponseWriter.fresh r)).finish

/-- The byte string `needle` occurs in `hay` as a contiguous run. -/
def Contains (hay needle : GoString) : Prop := needle <:+: hay

instance (hay needle : GoString) : Decidable (Contains hay needle) :=
  inferInstanceAs (Decidable (needle <:+: hay))

/-- Snapshot `j` agrees with the builder's snapshot `i` on every field other
than `LBRequest`, and its `ClientIP` is empty. -/
def AgreesWithBuilder (j i : Instance) : Prop :=
  j.Id = i.Id ∧ j.Name = i.Name ∧ j.Hostname = i.Hostname ∧ j.Zone = i.Zone ∧
  j.Project = i.Project ∧ j.InternalIP = i.InternalIP ∧ j.ExternalIP = i.ExternalIP ∧
  j.Error = i.Error ∧ j.ClientIP = []

/-! ## Sample collaborators -/

/-- Splits a byte string at every occurrence of `sep`. -/
def splitAt (sep : Byte) : GoString → List GoString
  | [] => [[]]
  | c :: cs =>
    if c = sep then [] :: splitAt sep cs
    else
      match splitAt sep cs with
      | [] => [[c]]
      | x :: xs => (c :: x) :: xs

/-- Sample serializer: the ten fields in declaration order, separated by
`|`. -/
def sampleMarshal (i : Instance) : GoString × Option GoError :=
  (i.Id ++ lit "|" ++ i.Name ++ lit "|" ++ i.Hostname ++ lit "|" ++ i.Zone ++ lit "|" ++
    i.Project ++ lit "|" ++ i.InternalIP ++ lit "|" ++ i.ExternalIP ++ lit "|" ++
    i.LBRequest ++ lit "|" ++ i.ClientIP ++ lit "|" ++ i.Error, none)

/-- Sample deserializer for `sampleMarshal`; any other shape is an error and
leaves the target unchanged. -/
def sampleUnmarshal (data : GoString) (i : Instance) : Instance × Option GoError :=
  match splitAt 124 data with
  | [id, name, hostname, zone, project, internalIP, externalIP, lbRequest, clientIP, error] =>
    ({ Id := id, Name := name, Hostname := hostname, Zone := zone, Project := project,
       InternalIP := internalIP, ExternalIP := externalIP, LBRequest := lbRequest,
       ClientIP := clientIP, Error := error }, none)
  | _ => (i, some ⟨lit "unexpected end of input"⟩)

/-- Sample rendering of what follows the request URI in a dump: protocol
version, blank line, body. -/
def sampleRest (_r : Request) (body : GoString) : GoString :=
  lit " HTTP/1.1\r\n\r\n" ++ body

/-- Sample template: a heading, then the instance name and the error. -/
def sampleTpl : Template where
  Execute i := ([lit "<h1>Backend</h1>", i.Name, i.Error], none)

/-- Sample request `GET /` without body. -/
def reqGet : Request := { Method := lit "GET", RequestURI := lit "/" }

/-- Sample request `HEAD /` without body. -/
def reqHead : Request := { Method := lit "HEAD", RequestURI := lit "/" }

/-- Sample request `POST /submit` whose body breaks off while being read. -/
def reqTruncated : Request :=
  { Method := lit "POST", RequestURI := lit "/submit",
    Body := { data := lit "par", err := some ⟨lit "unexpected EOF"⟩ } }

/-- Sample transport error. -/
def errRefused : GoError := ⟨lit "dial tcp 127.0.0.1:8081: connection refused"⟩

/-- Sample frontend whose backend cannot be reached. -/
def feUnreachable : Frontend :=
  { Do := .error errRefused, Unmarshal := sampleUnmarshal, tpl := sampleTpl }

/-- Sample backend body that breaks off while being read. -/
def bodyBroken : ReadCloser := { data := lit "42|vm", err := some ⟨lit "unexpected EOF"⟩ }

/-- Sample frontend whose backend answers 200 with a body that breaks off. -/
def feBrokenBody : Frontend :=
  { Do := .ok { StatusCode := 200, Body := bodyBroken },
    Unmarshal := sampleUnmarshal, tpl := sampleTpl }

/-- Sample backend body: a snapshot with name `vm-1` and `Error` equal to
`boom`, in the sample serialization. -/
def bodyBoom : ReadCloser := { data := lit "|vm-1||||||||boom" }

/-- The snapshot in `bodyBoom`. -/
def snapBoom : Instance := { Name := lit "vm-1", Error := lit "boom" }

/-- Sample frontend whose backend answers 404 with `bodyBoom`. -/
def feBoom : Frontend :=
  { Do := .ok { StatusCode := 404, Body := bodyBoom },
    Unmarshal := sampleUnmarshal, tpl := sampleTpl }

/-- Sample backend on the platform. -/
def beOk : Backend := { md := mdAllOk, dumpRest := sampleRest, Marshal := sampleMarshal }

/-! ## Lemmas about `assign` -/

theorem assign_ok (md : Metadata) (calls : List Lookup) (k : Lookup)
    (h : (md.get k).2 = none) :
    assigner.assign { err := none } calls md k =
      ((md.get k).1, { err := none }, calls ++ [k]) := by
  unfold assigner.assign
  rcases hk : md.get k with ⟨s, err⟩
  rw [hk] at h
  simp only at h
  subst h
  rfl

theorem assign_fail (md : Metadata) (calls : List Lookup) (k : Lookup) (e : GoError)
    (h : (md.get k).2 = some e) :
    assigner.assign { err := none } calls md k =
      ((md.get k).1, { err := some e }, calls ++ [k]) := by
  unfold assigner.assign
  rcases hk : md.get k with ⟨s, err⟩
  rw [hk] at h
  simp only at h
  subst h
  rfl

theorem assign_skip (md : Metadata) (calls : List Lookup) (k : Lookup) (e : GoError) :
    assigner.assign { err := some e } calls md k = ([], { err := some e }, calls) := by
  rfl

/-- Off the platform `newInstance` stops at once. -/
theorem newInstanceRun_off (md : Metadata) (h : md.OnGCE = false) :
    newInstanceRun md = ({ Error := lit "Not running on GCE" }, []) := by
  simp [newInstanceRun, h]

/-- Closed form of a run in which every lookup succeeds. -/
theorem newInstanceRun_ok (md : Metadata) (hon : md.OnGCE = true)
    (h : ∀ k, (md.get k).2 = none) :
    newInstanceRun md =
      ({ Id := (md.get .InstanceID).1, Zone := (md.get .Zone).1,
         Name := (md.get .InstanceName).1, Hostname := (md.get .Hostname).1,
         Project := (md.get .ProjectID).1, InternalIP := (md.get .InternalIP).1,
         ExternalIP := (md.get .ExternalIP).1 }, lookupOrder) := by
  simp [newInstanceRun, hon, assign_ok _ _ _ (h _), lookupOrder]

/-- Closed form of a run in which lookup `k` is the first to fail: the fields
before `k` hold their values, the field of `k` holds the string returned next
to the error, later fields are empty, and exactly the lookups up to `k` were
invoked. -/
theorem newInstanceRun_fail (md : Metadata) (hon : md.OnGCE = true) (k : Lookup) (e : GoError)
    (hprev : ∀ j : Lookup, j.pos < k.pos → (md.get j).2 = none)
    (hk : (md.get k).2 = some e) :
    (∀ j : Lookup, j.pos ≤ k.pos → (newInstanceRun md).1.field j = (md.get j).1) ∧
    (∀ j : Lookup, k.pos < j.pos → (newInstanceRun md).1.field j = []) ∧
    (newInstanceRun md).1.Error = e.msg ∧
    (newInstanceRun md).1.LBRequest = [] ∧ (newInstanceRun md).1.ClientIP = [] ∧
    (newInstanceRun md).2 = lookupOrder.take k.pos := by
  have hfail : ∀ calls, assigner.assign { err := none } calls md k =
      ((md.get k).1, { err := some e }, calls ++ [k]) := fun calls =>
    assign_fail md calls k e hk
  have hok : ∀ (j : Lookup), j.pos < k.pos → ∀ calls,
      assigner.assign { err := none } calls md j =
        ((md.get j).1, { err := none }, calls ++ [j]) := fun j hj calls =>
    assign_ok md calls j (hprev j hj)
  cases k
  · -- first failure at InstanceID
    have run : newInstanceRun md =
        ({ Id := (md.get .InstanceID).1,
           Error := e.msg }, [.InstanceID]) := by
      simp only [newInstanceRun, hon, hfail, assign_skip, GoError.Error]
      rfl
    rw [run]
    refine ⟨?_, ?_, rfl, rfl, rfl, rfl⟩
    · intro j hj
      cases j <;> first | rfl | exact absurd hj (by decide)
    · intro j hj
      cases j <;> first | rfl | exact absurd hj (by decide)
  · -- first failure at Zone
    have h0 := hok .InstanceID (by decide)
    have run : newInstanceRun md =
        ({ Id := (md.get .InstanceID).1, Zone := (md.get .Zone).1,
           Error := e.msg }, [.InstanceID, .Zone]) := by
      simp only [newInstanceRun, hon, h0, hfail, assign_skip, GoError.Error]
      rfl
    rw [run]
    refine ⟨?_, ?_, rfl, rfl, rfl, rfl⟩
    · intro j hj
      cases j <;> first | rfl | exact absurd hj (by decide)
    · intro j hj
      cases j <;> first | rfl | exact absurd hj (by decide)
  · -- first failure at InstanceName
    have h0 := hok .InstanceID (by decide)
    have h1 := hok .Zone (by decide)
    have run : newInstanceRun md =
        ({ Id := (md.get .InstanceID).1, Zone := (md.get .Zone).1, Name := (md.get .InstanceName).1,
           Error := e.msg }, [.InstanceID, .Zone, .InstanceName]) := by
      simp only [newInstanceRun, hon, h0, h1, hfail, assign_skip, GoError.Error]
      rfl
    rw [run]
    refine ⟨?_, ?_, rfl, rfl, rfl, rfl⟩
    · intro j hj
      cases j <;> first | rfl | exact absurd hj (by decide)
    · intro j hj
      cases j <;> first | rfl | exact absurd hj (by decide)
  · -- first failure at Hostname
    have h0 := hok .InstanceID (by decide)
    have h1 := hok .Zone (by decide)
    have h2 := hok .InstanceName (by decide)
    have run : newInstanceRun md =
        ({ Id := (md.get .InstanceID).1, Zone := (md.get .Zone).1,
           Name := (md.get .InstanceName).1, Hostname := (md.get .Hostname).1,
           Error := e.msg }, [.InstanceID, .Zone, .InstanceName, .Hostname]) := by
      simp only [newInstanceRun, hon, h0, h1, h2, hfail, assign_skip, GoError.Error]
      rfl
    rw [run]
    refine ⟨?_, ?_, rfl, rfl, rfl, rfl⟩
    · intro j hj
      cases j <;> first | rfl | exact absurd hj (by decide)
    · intro j hj
      cases j <;> first | rfl | exact absurd hj (by decide)
  · -- first failure at ProjectID
    have h0 := hok .InstanceID (by decide)
    have h1 := hok .Zone (by decide)
    have h2 := hok .InstanceName (by decide)
    have h3 := hok .Hostname (by decide)
    have run : newInstanceRun md =
        ({ Id := (md.get .InstanceID).1, Zone := (md.get .Zone).1,
           Name := (md.get .InstanceName).1, Hostname := (md.get .Hostname).1,
           Project := (md.get .ProjectID).1,
           Error := e.msg }, [.InstanceID, .Zone, .InstanceName, .Hostname, .ProjectID]) := by
      simp only [newInstanceRun, hon, h0, h1, h2, h3, hfail, assign_skip, GoError.Error]
      rfl
    rw [run]
    refine ⟨?_, ?_, rfl, rfl, rfl, rfl⟩
    · intro j hj
      cases j <;> first | rfl | exact absurd hj (by decide)
    · intro j hj
      cases j <;> first | rfl | exact absurd hj (by decide)
  · -- first failure at InternalIP
    have h0 := hok .InstanceID (by decide)
    have h1 := hok .Zone (by decide)
    have h2 := hok .InstanceName (by decide)
    have h3 := hok .Hostname (by decide)
    have h4 := hok .ProjectID (by decide)
    have run : newInstanceRun md =
        ({ Id := (md.get .InstanceID).1, Zone := (md.get .Zone).1,
           Name := (md.get .InstanceName).1, Hostname := (md.get .Hostname).1,
           Project := (md.get .ProjectID).1, InternalIP := (md.get .InternalIP).1,
           Error := e.msg },
          [.InstanceID, .Zone, .InstanceName, .Hostname, .ProjectID, .InternalIP]) := by
      simp only [newInstanceRun, hon, h0, h1, h2, h3, h4, hfail, assign_skip, GoError.Error]
      rfl
    rw [run]
    refine ⟨?_, ?_, rfl, rfl, rfl, rfl⟩
    · intro j hj
      cases j <;> first | rfl | exact absurd hj (by decide)
    · intro j hj
      cases j <;> first | rfl | exact absurd hj (by decide)
  · -- first failure at ExternalIP
    have h0 := hok .InstanceID (by decide)
    have h1 := hok .Zone (by decide)
    have h2 := hok .InstanceName (by decide)
    have h3 := hok .Hostname (by decide)
    have h4 := hok .ProjectID (by decide)
    have h5 := hok .InternalIP (by decide)
    have run : newInstanceRun md =
        ({ Id := (md.get .InstanceID).1, Zone := (md.get .Zone).1,
           Name := (md.get .InstanceName).1, Hostname := (md.get .Hostname).1,
           Project := (md.get .ProjectID).1, InternalIP := (md.get .InternalIP).1,
           ExternalIP := (md.get .ExternalIP).1,
           Error := e.msg },
          [.InstanceID, .Zone, .InstanceName, .Hostname, .ProjectID, .InternalIP, .ExternalIP]) := by
      simp only [newInstanceRun, hon, h0, h1, h2, h3, h4, h5, hfail, assign_skip, GoError.Error]
      rfl
    rw [run]
    refine ⟨?_, ?_, rfl, rfl, rfl, rfl⟩
    · intro j _
      cases j <;> rfl
    · intro j hj
      cases j <;> first | rfl | exact absurd hj (by decide)

/-! ## Lemmas about the response writer -/

/-- Closed form of a write on a writer whose status, if fixed, allows a
body. -/
theorem write_of_allowed (w : ResponseWriter) (d : GoString)
    (h : w.wroteHeader = true → bodyAllowedForStatus w.status = true) :
    w.Write d =
      { reqMethod := w.reqMethod, wroteHeader := true,
        status := if w.wroteHeader then w.status else 200,
        body := if w.reqMethod = lit "HEAD" then w.body else w.body ++ d } := by
  cases hw : w.wroteHeader with
  | false =>
    by_cases hm : w.reqMethod = lit "HEAD" <;>
      simp [ResponseWriter.Write, ResponseWriter.WriteHeader, hw, hm, StatusOK,
        bodyAllowedForStatus]
  | true =>
    have ha := h hw
    obtain ⟨m, wh, st, b⟩ := w
    by_cases hm : m = lit "HEAD" <;>
      simp_all [ResponseWriter.Write]

/-- Writing a list of chunks: the status is the one already fixed, or 200;
the chunks go out unless the request method is HEAD. -/
theorem write_fold (chunks : List GoString) (w : ResponseWriter)
    (h : w.wroteHeader = true → bodyAllowedForStatus w.status = true) :
    (chunks.foldl ResponseWriter.Write w).finish =
      { status := w.finish.status,
        body := if w.reqMethod = lit "HEAD" then w.body else w.body ++ chunks.flatten } := by
  induction chunks generalizing w with
  | nil =>
    cases hw : w.wroteHeader <;>
      simp [ResponseWriter.finish, ResponseWriter.WriteHeader, hw]
  | cons c cs ih =>
    simp only [List.foldl_cons]
    rw [write_of_allowed w c h]
    rw [ih]
    · cases hw : w.wroteHeader <;> by_cases hm : w.reqMethod = lit "HEAD" <;>
        simp [ResponseWriter.finish, ResponseWriter.WriteHeader, hw, hm, StatusOK]
    · intro _
      cases hw : w.wroteHeader
      · simp [bodyAllowedForStatus]
      · simpa [hw] using h hw

/-- Executing the template on the fresh writer of request `r`: status 200,
and the rendered text unless the method is HEAD. -/
theorem executeOn_fresh (tpl : Template) (r : Request) (i : Instance) :
    (tpl.ExecuteOn (ResponseWriter.fresh r) i).1.finish =
      { status := 200, body := if r.Method = lit "HEAD" then [] else tpl.render i } := by
  simp only [Template.ExecuteOn]
  rw [write_fold]
  · simp [ResponseWriter.fresh, ResponseWriter.finish, ResponseWriter.WriteHeader, StatusOK,
      Template.render]
  · intro h
    simp [ResponseWriter.fresh] at h

/-- Reply to a request answered by one `WriteHeader(code)` followed by one
`Write(msg)`, for the status codes the handlers use. -/
theorem header_then_write (r : Request) (code : Nat) (msg : GoString)
    (h : bodyAllowedForStatus code = true) :
    (((ResponseWriter.fresh r).WriteHeader code).Write msg).finish =
      { status := code, body := if r.Method = lit "HEAD" then [] else msg } := by
  rw [write_of_allowed]
  · by_cases hm : r.Method = lit "HEAD" <;>
      simp [ResponseWriter.fresh, ResponseWriter.finish, ResponseWriter.WriteHeader, hm]
  · intro _
    simpa [ResponseWriter.fresh, ResponseWriter.WriteHeader] using h

/-- Some failing lookup gives a first failing lookup. -/
theorem exists_first_failure (md : Metadata) (k : Lookup) (hk : (md.get k).2 ≠ none) :
    ∃ (k0 : Lookup) (e : GoError),
      (∀ j : Lookup, j.pos < k0.pos → (md.get j).2 = none) ∧ (md.get k0).2 = some e := by
  have key : ∀ (n : Nat) (k : Lookup), k.pos = n → (md.get k).2 ≠ none →
      ∃ (k0 : Lookup) (e : GoError),
        (∀ j : Lookup, j.pos < k0.pos → (md.get j).2 = none) ∧ (md.get k0).2 = some e := by
    intro n
    induction n using Nat.strong_induction_on with
    | _ n ih =>
      intro k hn hk
      by_cases hprev : ∀ j : Lookup, j.pos < k.pos → (md.get j).2 = none
      · obtain ⟨e, he⟩ := Option.ne_none_iff_exists.mp hk
        exact ⟨k, e, hprev, he.symm⟩
      · push_neg at hprev
        obtain ⟨j, hj, hjk⟩ := hprev
        exact ih j.pos (hn ▸ hj) j rfl hjk
  exact key k.pos k rfl hk

/-- The builder never touches `LBRequest` and `ClientIP`. -/
theorem newInstance_untouched (md : Metadata) :
    (newInstance md).LBRequest = [] ∧ (newInstance md).ClientIP = [] := by
  cases hon : md.OnGCE with
  | false =>
    unfold newInstance
    rw [newInstanceRun_off md hon]
    exact ⟨rfl, rfl⟩
  | true =>
    by_cases hall : ∀ k : Lookup, (md.get k).2 = none
    · unfold newInstance
      rw [newInstanceRun_ok md hon hall]
      exact ⟨rfl, rfl⟩
    · push_neg at hall
      obtain ⟨k, hk⟩ := hall
      obtain ⟨k0, e, hprev, he⟩ := exists_first_failure md k hk
      obtain ⟨-, -, -, h1, h2, -⟩ := newInstanceRun_fail md hon k0 e hprev he
      exact ⟨h1, h2⟩

/-! ## The snapshot builder -/

/-- C1, as stated, at a provider whose id lookup fails and returns the string
`partial` next to its error: the platform check is true, no lookup precedes
the first one, the lookup returns an error, and yet field 1 of the snapshot
is `partial`, so the fields from the failing lookup onward are not all
empty. -/
theorem newInstance_failed_field_keeps_value :
    mdIdFailsWithValue.OnGCE = true ∧
    (∀ j : Lookup, j.pos < Lookup.InstanceID.pos → (mdIdFailsWithValue.get j).2 = none) ∧
    mdIdFailsWithValue.get .InstanceID = (lit "partial", some ⟨lit "boom"⟩) ∧
    (newInstance mdIdFailsWithValue).Id = lit "partial" ∧
    ¬ (∀ j : Lookup, Lookup.InstanceID.pos ≤ j.pos →
        (newInstance mdIdFailsWithValue).field j = []) := by
  refine ⟨rfl, ?_, rfl, by decide, ?_⟩
  · intro j hj
    cases j <;> first | rfl | exact absurd hj (by decide)
  · intro h
    exact absurd (h .InstanceID (le_refl _)) (by decide)

/-- C1 (amended): on the platform, when lookups 1..k-1 succeed and lookup k
returns an error, the fields 1..k-1 of the snapshot equal the values of their
lookups, field k equals the string lookup k returned next to its error,
fields k+1..7 are empty, and `Error` is the message of lookup k's error.  In
particular, when lookup k returns the empty string next to its error, all of
the fields k..7 are empty. -/
theorem newInstance_first_failure (md : Metadata) (k : Lookup) (e : GoError)
    (hon : md.OnGCE = true)
    (hprev : ∀ j : Lookup, j.pos < k.pos → (md.get j).2 = none)
    (hk : (md.get k).2 = some e) :
    (∀ j : Lookup, j.pos < k.pos → (newInstance md).field j = (md.get j).1) ∧
    (newInstance md).field k = (md.get k).1 ∧
    (∀ j : Lookup, k.pos < j.pos → (newInstance md).field j = []) ∧
    (newInstance md).Error = e.msg ∧
    ((md.get k).1 = [] → ∀ j : Lookup, k.pos ≤ j.pos → (newInstance md).field j = []) := by
  obtain ⟨hle, hgt, herr, -, -, -⟩ := newInstanceRun_fail md hon k e hprev hk
  refine ⟨fun j hj => hle j (Nat.le_of_lt hj), hle k (le_refl _), hgt, herr, ?_⟩
  intro hempty j hj
  rcases Nat.lt_or_ge k.pos j.pos with hlt | hge
  · exact hgt j hlt
  · have h := hle j hge
    have hjk : j = k := by
      have hpos : j.pos = k.pos := Nat.le_antisymm hge hj
      cases j <;> cases k <;> first | rfl | exact absurd hpos (by decide)
    rw [hjk] at h ⊢
    exact h.trans hempty

/-- Witness of `newInstance_first_failure`: the name lookup (third) fails
with an empty string. -/
theorem newInstance_first_failure_witness :
    mdNameFails.OnGCE = true ∧
    (mdNameFails.get .InstanceName).2 = some ⟨lit "metadata: timeout"⟩ ∧
    (newInstance mdNameFails).Error = lit "metadata: timeout" ∧
    (∀ j : Lookup, Lookup.InstanceName.pos ≤ j.pos → (newInstance mdNameFails).field j = []) :=
  have h := newInstance_first_failure mdNameFails .InstanceName ⟨lit "metadata: timeout"⟩ rfl
    (fun j hj => by cases j <;> first | rfl | exact absurd hj (by decide)) rfl
  ⟨rfl, rfl, h.2.2.2.1, h.2.2.2.2 rfl⟩

/-- C2: when the platform check is false, whatever the lookups would return,
the snapshot has `Error` equal to `Not running on GCE` and every other field
empty. -/
theorem newInstance_off_platform (md : Metadata) (h : md.OnGCE = false) :
    (newInstance md).Error = lit "Not running on GCE" ∧
    (newInstance md).Id = [] ∧ (newInstance md).Name = [] ∧ (newInstance md).Hostname = [] ∧
    (newInstance md).Zone = [] ∧ (newInstance md).Project = [] ∧
    (newInstance md).InternalIP = [] ∧ (newInstance md).ExternalIP = [] ∧
    (newInstance md).LBRequest = [] ∧ (newInstance md).ClientIP = [] := by
  unfold newInstance
  rw [newInstanceRun_off md h]
  exact ⟨rfl, rfl, rfl, rfl, rfl, rfl, rfl, rfl, rfl, rfl⟩

/-- Witness of `newInstance_off_platform`. -/
theorem newInstance_off_platform_witness :
    mdOffPlatform.OnGCE = false ∧ (newInstance mdOffPlatform).Error = lit "Not running on GCE" ∧
    (newInstance mdOffPlatform).Id = [] :=
  ⟨rfl, (newInstance_off_platform mdOffPlatform rfl).1,
    (newInstance_off_platform mdOffPlatform rfl).2.1⟩

/-- C3: on the platform, when all seven lookups succeed, `Error` is empty and
each of `Id`, `Zone`, `Name`, `Hostname`, `Project`, `InternalIP`,
`ExternalIP` is the value returned by its own lookup. -/
theorem newInstance_all_succeed (md : Metadata) (hon : md.OnGCE = true)
    (hall : ∀ k : Lookup, (md.get k).2 = none) :
    (newInstance md).Error = [] ∧
    (newInstance md).Id = (md.get .InstanceID).1 ∧
    (newInstance md).Zone = (md.get .Zone).1 ∧
    (newInstance md).Name = (md.get .InstanceName).1 ∧
    (newInstance md).Hostname = (md.get .Hostname).1 ∧
    (newInstance md).Project = (md.get .ProjectID).1 ∧
    (newInstance md).InternalIP = (md.get .InternalIP).1 ∧
    (newInstance md).ExternalIP = (md.get .ExternalIP).1 := by
  unfold newInstance
  rw [newInstanceRun_ok md hon hall]
  exact ⟨rfl, rfl, rfl, rfl, rfl, rfl, rfl, rfl⟩

/-- Witness of `newInstance_all_succeed`. -/
theorem newInstance_all_succeed_witness :
    mdAllOk.OnGCE = true ∧ (∀ k : Lookup, (mdAllOk.get k).2 = none) ∧
    (newInstance mdAllOk).Error = [] ∧ (newInstance mdAllOk).Zone = lit "us-central1-f" :=
  have hall : ∀ k : Lookup, (mdAllOk.get k).2 = none := fun k => by cases k <;> rfl
  ⟨rfl, hall, (newInstance_all_succeed mdAllOk rfl hall).1,
    (newInstance_all_succeed mdAllOk rfl hall).2.2.1⟩

/-- C4, as stated, at a provider whose id lookup fails with an error whose
message is empty: `Error` is empty although the platform check was true and a
lookup failed, so the equivalence does not hold. -/
theorem newInstance_error_empty_despite_failure :
    (mdIdFailsSilently.get .InstanceID).2 = some ⟨[]⟩ ∧
    (newInstance mdIdFailsSilently).Error = [] ∧
    ¬ ((newInstance mdIdFailsSilently).Error = [] ↔
        (mdIdFailsSilently.OnGCE = true ∧
          ∀ k : Lookup, (mdIdFailsSilently.get k).2 = none)) := by
  refine ⟨rfl, by decide, ?_⟩
  intro h
  have hall := (h.mp (by decide)).2 .InstanceID
  exact absurd hall (by decide)

/-- C4 (amended): `Error` of the snapshot is empty if and only if the
platform check was true and every one of the seven lookups succeeded,
provided that, when the platform check is true, the first lookup to fail (if
any) returns an error whose message is not empty.  Errors of lookups after
the first failing one, which are never invoked, do not matter. -/
theorem newInstance_error_empty_iff (md : Metadata)
    (hmsg : md.OnGCE = true → ∀ (k : Lookup) (e : GoError),
      (∀ j : Lookup, j.pos < k.pos → (md.get j).2 = none) → (md.get k).2 = some e →
      e.msg ≠ []) :
    (newInstance md).Error = [] ↔ (md.OnGCE = true ∧ ∀ k : Lookup, (md.get k).2 = none) := by
  constructor
  · intro herr
    cases hon : md.OnGCE with
    | false =>
      unfold newInstance at herr
      rw [newInstanceRun_off md hon] at herr
      exact absurd herr (by decide)
    | true =>
      refine ⟨rfl, ?_⟩
      by_contra hnot
      push_neg at hnot
      obtain ⟨k, hk⟩ := hnot
      obtain ⟨k0, e, hprev, he⟩ := exists_first_failure md k hk
      have h := (newInstanceRun_fail md hon k0 e hprev he).2.2.1
      have : e.msg = [] := by
        rw [← h]
        exact herr
      exact hmsg hon k0 e hprev he this
  · rintro ⟨hon, hall⟩
    unfold newInstance
    rw [newInstanceRun_ok md hon hall]

/-- Witness of `newInstance_error_empty_iff`: the zone lookup is the first to
fail, with message `first`; the project lookup would fail with an empty
message but is never invoked. -/
theorem newInstance_error_empty_iff_witness :
    (mdZoneFailsProjectSilent.get .ProjectID).2 = some ⟨[]⟩ ∧
    (newInstance mdZoneFailsProjectSilent).Error = lit "first" ∧
    ((newInstance mdZoneFailsProjectSilent).Error = [] ↔
      (mdZoneFailsProjectSilent.OnGCE = true ∧
        ∀ k : Lookup, (mdZoneFailsProjectSilent.get k).2 = none)) :=
  ⟨rfl, by decide,
    newInstance_error_empty_iff mdZoneFailsProjectSilent (fun _ k e hprev hk => by
      cases k
      · exact Option.noConfusion hk
      · have he : e = ⟨lit "first"⟩ := (Option.some.inj hk).symm
        rw [he]
        decide
      all_goals exact absurd (hprev .Zone (by decide)) (by decide))⟩

/-- C10: `newInstance` invokes the lookups in the order id, zone, name,
hostname, project, internalIP, externalIP, each at most once.  Off the
platform it invokes none; when no lookup fails it invokes exactly all seven;
when lookup k is the first to fail it invokes exactly the lookups 1..k and
none after it. -/
theorem newInstance_call_order (md : Metadata) :
    (md.OnGCE = false → newInstanceCalls md = []) ∧
    (md.OnGCE = true → (∀ k : Lookup, (md.get k).2 = none) →
      newInstanceCalls md = lookupOrder) ∧
    (md.OnGCE = true → ∀ (k : Lookup) (e : GoError),
      (∀ j : Lookup, j.pos < k.pos → (md.get j).2 = none) → (md.get k).2 = some e →
      newInstanceCalls md = lookupOrder.take k.pos ∧
      ∀ j : Lookup, (j ∈ newInstanceCalls md ↔ j.pos ≤ k.pos)) ∧
    newInstanceCalls md <+: lookupOrder ∧
    (newInstanceCalls md).Nodup := by
  have hoff : md.OnGCE = false → newInstanceCalls md = [] := fun h => by
    unfold newInstanceCalls
    rw [newInstanceRun_off md h]
  have hok : md.OnGCE = true → (∀ k : Lookup, (md.get k).2 = none) →
      newInstanceCalls md = lookupOrder := fun hon hall => by
    unfold newInstanceCalls
    rw [newInstanceRun_ok md hon hall]
  have hfail : md.OnGCE = true → ∀ (k : Lookup) (e : GoError),
      (∀ j : Lookup, j.pos < k.pos → (md.get j).2 = none) → (md.get k).2 = some e →
      newInstanceCalls md = lookupOrder.take k.pos := fun hon k e hprev hk =>
    (newInstanceRun_fail md hon k e hprev hk).2.2.2.2.2
  have hpre : newInstanceCalls md <+: lookupOrder := by
    cases hon : md.OnGCE with
    | false =>
      rw [hoff hon]
      exact List.nil_prefix
    | true =>
      by_cases hall : ∀ k : Lookup, (md.get k).2 = none
      · rw [hok hon hall]
      · push_neg at hall
        obtain ⟨k, hk⟩ := hall
        obtain ⟨k0, e, hprev, he⟩ := exists_first_failure md k hk
        rw [hfail hon k0 e hprev he]
        exact List.take_prefix _ _
  refine ⟨hoff, hok, ?_, hpre, ?_⟩
  · intro hon k e hprev hk
    refine ⟨hfail hon k e hprev hk, ?_⟩
    intro j
    rw [hfail hon k e hprev hk]
    cases k <;> cases j <;> decide
  · exact List.Nodup.sublist hpre.sublist (by decide)

/-- Witness of `newInstance_call_order`: when the name lookup (third) is the
first to fail, exactly id, zone and name are invoked. -/
theorem newInstance_call_order_witness :
    mdNameFails.OnGCE = true ∧
    (mdNameFails.get .InstanceName).2 = some ⟨lit "metadata: timeout"⟩ ∧
    newInstanceCalls mdNameFails = [.InstanceID, .Zone, .InstanceName] :=
  ⟨rfl, rfl,
    ((newInstance_call_order mdNameFails).2.2.1 rfl .InstanceName ⟨lit "metadata: timeout"⟩
      (fun j hj => by cases j <;> first | rfl | exact absurd hj (by decide)) rfl).1⟩

/-! ## Closed forms of the handlers -/

/-- The frontend `/` handler when the outbound call fails. -/
theorem frontendRoot_do_error (env : Frontend) (r : Request) (e : GoError)
    (h : env.Do = .error e) :
    frontendRootReply env r =
      { status := 503,
        body := if r.Method = lit "HEAD" then [] else lit "Error: " ++ e.msg ++ lit "\n" } ∧
    frontendRootCalls env r = [.Do] := by
  have hrun : frontendMode_root env r (ResponseWriter.fresh r) =
      (((ResponseWriter.fresh r).WriteHeader 503).Write (lit "Error: " ++ e.msg ++ lit "\n"),
        [.Do]) := by
    simp [frontendMode_root, h, StatusServiceUnavailable, GoError.Error]
  refine ⟨?_, by rw [frontendRootCalls, hrun]⟩
  rw [frontendRootReply, hrun]
  exact header_then_write r 503 _ (by decide)

/-- The frontend `/` handler when reading the backend body fails. -/
theorem frontendRoot_read_error (env : Frontend) (r : Request) (code : Nat)
    (body : ReadCloser) (e : GoError)
    (hdo : env.Do = .ok { StatusCode := code, Body := body }) (hread : body.err = some e) :
    frontendRootReply env r =
      { status := 500,
        body := if r.Method = lit "HEAD" then [] else lit "Error: " ++ e.msg ++ lit "\n" } ∧
    frontendRootCalls env r = [.Do, .ReadAll, .Close] := by
  have hrun : frontendMode_root env r (ResponseWriter.fresh r) =
      (((ResponseWriter.fresh r).WriteHeader 500).Write (lit "Error: " ++ e.msg ++ lit "\n"),
        [.Do, .ReadAll, .Close]) := by
    simp [frontendMode_root, hdo, ReadAll, hread, StatusInternalServerError, GoError.Error]
  refine ⟨?_, by rw [frontendRootCalls, hrun]⟩
  rw [frontendRootReply, hrun]
  exact header_then_write r 500 _ (by decide)

/-- The frontend `/` handler when the backend body is read and does not
deserialize. -/
theorem frontendRoot_decode_error (env : Frontend) (r : Request) (code : Nat)
    (body : ReadCloser) (e : GoError)
    (hdo : env.Do = .ok { StatusCode := code, Body := body }) (hread : body.err = none)
    (hdec : (env.Unmarshal body.data {}).2 = some e) :
    frontendRootReply env r =
      { status := 500,
        body := if r.Method = lit "HEAD" then [] else lit "Error: " ++ e.msg ++ lit "\n" } ∧
    frontendRootCalls env r = [.Do, .ReadAll, .Unmarshal, .Close] := by
  rcases hu : env.Unmarshal body.data {} with ⟨i, uerr⟩
  rw [hu] at hdec
  simp only at hdec
  subst hdec
  have hrun : frontendMode_root env r (ResponseWriter.fresh r) =
      (((ResponseWriter.fresh r).WriteHeader 500).Write (lit "Error: " ++ e.msg ++ lit "\n"),
        [.Do, .ReadAll, .Unmarshal, .Close]) := by
    simp [frontendMode_root, hdo, ReadAll, hread, hu, StatusInternalServerError, GoError.Error]
  refine ⟨?_, by rw [frontendRootCalls, hrun]⟩
  rw [frontendRootReply, hrun]
  exact header_then_write r 500 _ (by decide)

/-- The frontend `/` handler when the backend body deserializes to `s`. -/
theorem frontendRoot_ok (env : Frontend) (r : Request) (code : Nat)
    (body : ReadCloser) (s : Instance)
    (hdo : env.Do = .ok { StatusCode := code, Body := body }) (hread : body.err = none)
    (hdec : env.Unmarshal body.data {} = (s, none)) :
    frontendRootReply env r =
      { status := 200, body := if r.Method = lit "HEAD" then [] else env.tpl.render s } ∧
    frontendRootCalls env r = [.Do, .ReadAll, .Unmarshal, .Execute, .Close] := by
  have hrun : frontendMode_root env r (ResponseWriter.fresh r) =
      ((env.tpl.ExecuteOn (ResponseWriter.fresh r) s).1,
        [.Do, .ReadAll, .Unmarshal, .Execute, .Close]) := by
    simp [frontendMode_root, hdo, ReadAll, hread, hdec]
  refine ⟨?_, by rw [frontendRootCalls, hrun]⟩
  rw [frontendRootReply, hrun]
  exact executeOn_fresh env.tpl r s

/-- The frontend `/healthz` handler when the outbound call fails. -/
theorem frontendHealthz_do_error (env : Frontend) (r : Request) (e : GoError)
    (h : env.Do = .error e) :
    frontendHealthzReply env r =
      { status := 503,
        body := if r.Method = lit "HEAD" then []
          else lit "Backend could not be connected to: " ++ e.msg } := by
  have hrun : frontendMode_healthz env r (ResponseWriter.fresh r) =
      (((ResponseWriter.fresh r).WriteHeader 503).Write
        (lit "Backend could not be connected to: " ++ e.msg), [.Do]) := by
    simp [frontendMode_healthz, h, StatusServiceUnavailable, GoError.Error]
  rw [frontendHealthzReply, hrun]
  exact header_then_write r 503 _ (by decide)

/-- The frontend `/healthz` handler when the outbound call succeeds. -/
theorem frontendHealthz_do_ok (env : Frontend) (r : Request) (resp : Response)
    (h : env.Do = .ok resp) :
    frontendHealthzReply env r = { status := 200, body := [] } := by
  simp [frontendHealthzReply, frontendMode_healthz, h, ResponseWriter.fresh,
    ResponseWriter.WriteHeader, ResponseWriter.finish, StatusOK]

/-- The backend `/` handler. -/
theorem backendRoot_closed (env : Backend) (r : Request) :
    backendRootReply env r =
      { status := 200,
        body := if r.Method = lit "HEAD" then []
          else (env.Marshal (backendMode_snapshot env r)).1 } := by
  have h := write_of_allowed (ResponseWriter.fresh r)
    (env.Marshal (backendMode_snapshot env r)).1 (by simp [ResponseWriter.fresh])
  simp only [backendRootReply, backendMode_root]
  rw [h]
  by_cases hm : r.Method = lit "HEAD" <;>
    simp [ResponseWriter.fresh, ResponseWriter.finish, hm]

/-- The dump of a request whose body is read in full. -/
theorem dumpRequest_ok (rest : Request → GoString → GoString) (r : Request)
    (h : r.Body.err = none) :
    DumpRequest rest r =
      (valueOrDefault r.Method (lit "GET") ++ lit " " ++
        (if r.RequestURI = [] then r.URL else r.RequestURI) ++ rest r r.Body.data, none) := by
  simp [DumpRequest, ReadAll, h]

/-- The dump of a request whose body cannot be read in full. -/
theorem dumpRequest_err (rest : Request → GoString → GoString) (r : Request) (e : GoError)
    (h : r.Body.err = some e) : DumpRequest rest r = ([], some e) := by
  simp [DumpRequest, ReadAll, h]

/-- A successful dump contains the method and the request URI as sent. -/
theorem dumpRequest_contains (rest : Request → GoString → GoString) (r : Request)
    (h : (DumpRequest rest r).2 = none) :
    Contains (DumpRequest rest r).1 r.Method ∧ Contains (DumpRequest rest r).1 r.RequestURI := by
  cases hb : r.Body.err with
  | some err =>
    rw [dumpRequest_err rest r err hb] at h
    exact Option.noConfusion h
  | none =>
    rw [dumpRequest_ok rest r hb]
    constructor
    · by_cases hm : r.Method = []
      · rw [hm]
        exact List.nil_infix
      · refine ⟨[], lit " " ++ (if r.RequestURI = [] then r.URL else r.RequestURI) ++
          rest r r.Body.data, ?_⟩
        simp [valueOrDefault, hm]
    · by_cases hu : r.RequestURI = []
      · rw [hu]
        exact List.nil_infix
      · refine ⟨valueOrDefault r.Method (lit "GET") ++ lit " ", rest r r.Body.data, ?_⟩
        simp [hu]

/-- A failed dump leaves no bytes. -/
theorem dumpRequest_failed (rest : Request → GoString → GoString) (r : Request)
    (h : (DumpRequest rest r).2 ≠ none) : (DumpRequest rest r).1 = [] := by
  cases hb : r.Body.err with
  | some err => rw [dumpRequest_err rest r err hb]
  | none =>
    rw [dumpRequest_ok rest r hb] at h
    exact absurd rfl h

/-! ## The frontend handlers -/

/-- C5, as stated, at a HEAD request: the outbound call fails, the reply has
status 503, but net/http sends no body for HEAD, so the body is not `Error: `
followed by the message and does not contain the word `Error`. -/
theorem head_transport_failure_has_no_body :
    feUnreachable.Do = .error errRefused ∧
    frontendRootReply feUnreachable reqHead = { status := 503, body := [] } ∧
    (frontendRootReply feUnreachable reqHead).body ≠
      lit "Error: " ++ errRefused.msg ++ lit "\n" ∧
    ¬ Contains (frontendRootReply feUnreachable reqHead).body (lit "Error") := by
  refine ⟨rfl, by decide, by decide, by decide⟩

/-- C5 (amended): when the outbound call fails at the transport level with
error `e`, the frontend `/` handler answers 503, invokes nothing after the
call and does not execute the template.  For every request whose method is
not HEAD the body is `Error: ` followed by the message of `e` and a newline
(so it contains the word `Error`); for a HEAD request no body is sent. -/
theorem frontend_root_transport_failure (env : Frontend) (r : Request) (e : GoError)
    (h : env.Do = .error e) :
    (frontendRootReply env r).status = 503 ∧
    (r.Method ≠ lit "HEAD" →
      (frontendRootReply env r).body = lit "Error: " ++ e.msg ++ lit "\n" ∧
      Contains (frontendRootReply env r).body (lit "Error")) ∧
    (r.Method = lit "HEAD" → (frontendRootReply env r).body = []) ∧
    frontendRootCalls env r = [.Do] ∧
    Call.Execute ∉ frontendRootCalls env r := by
  obtain ⟨hreply, hcalls⟩ := frontendRoot_do_error env r e h
  rw [hreply, hcalls]
  refine ⟨rfl, ?_, ?_, rfl, by simp⟩
  · intro hm
    rw [if_neg hm]
    refine ⟨rfl, [], lit ": " ++ e.msg ++ lit "\n", ?_⟩
    have hl : lit "Error: " = lit "Error" ++ lit ": " := by decide
    rw [hl]
    simp
  · intro hm
    simp [hm]

/-- Witness of `frontend_root_transport_failure`: connection refused on a
GET request. -/
theorem frontend_root_transport_failure_witness :
    feUnreachable.Do = .error errRefused ∧ reqGet.Method ≠ lit "HEAD" ∧
    (frontendRootReply feUnreachable reqGet).status = 503 ∧
    (frontendRootReply feUnreachable reqGet).body =
      lit "Error: dial tcp 127.0.0.1:8081: connection refused\n" :=
  have h := frontend_root_transport_failure feUnreachable reqGet errRefused rfl
  ⟨rfl, by decide, h.1, (h.2.1 (by decide)).1.trans (by decide)⟩

/-- C6, as stated, at a HEAD request: the outbound call succeeds, reading the
backend body fails, the reply has status 500, but net/http sends no body for
HEAD, so the body is not `Error: ` followed by the message. -/
theorem head_read_failure_has_no_body :
    feBrokenBody.Do = .ok { StatusCode := 200, Body := bodyBroken } ∧
    bodyBroken.err = some ⟨lit "unexpected EOF"⟩ ∧
    frontendRootReply feBrokenBody reqHead = { status := 500, body := [] } ∧
    (frontendRootReply feBrokenBody reqHead).body ≠ lit "Error: unexpected EOF\n" := by
  refine ⟨rfl, rfl, by decide, by decide⟩

/-- C6 (amended): when the outbound call succeeds at the transport level,
with any backend status code, and either reading the body fails with error
`e`, or the body is read and deserializing it fails with error `e`, the
frontend `/` handler answers 500 and does not execute the template.  For
every request whose method is not HEAD the body is `Error: ` followed by the
message of `e` and a newline; for a HEAD request no body is sent. -/
theorem frontend_root_read_or_decode_failure (env : Frontend) (r : Request) (code : Nat)
    (body : ReadCloser) (e : GoError)
    (hdo : env.Do = .ok { StatusCode := code, Body := body })
    (hfail : body.err = some e ∨
      (body.err = none ∧ (env.Unmarshal body.data {}).2 = some e)) :
    (frontendRootReply env r).status = 500 ∧
    (r.Method ≠ lit "HEAD" →
      (frontendRootReply env r).body = lit "Error: " ++ e.msg ++ lit "\n") ∧
    (r.Method = lit "HEAD" → (frontendRootReply env r).body = []) ∧
    Call.Execute ∉ frontendRootCalls env r := by
  have key : frontendRootReply env r =
      { status := 500,
        body := if r.Method = lit "HEAD" then [] else lit "Error: " ++ e.msg ++ lit "\n" } ∧
      Call.Execute ∉ frontendRootCalls env r := by
    rcases hfail with hread | ⟨hread, hdec⟩
    · obtain ⟨h1, h2⟩ := frontendRoot_read_error env r code body e hdo hread
      exact ⟨h1, by rw [h2]; simp⟩
    · obtain ⟨h1, h2⟩ := frontendRoot_decode_error env r code body e hdo hread hdec
      exact ⟨h1, by rw [h2]; simp⟩
  obtain ⟨hreply, hcalls⟩ := key
  rw [hreply]
  refine ⟨rfl, ?_, ?_, hcalls⟩
  · intro hm
    simp [hm]
  · intro hm
    simp [hm]

/-- Witness of `frontend_root_read_or_decode_failure`: the backend answers
200 and its body breaks off while being read, on a GET request. -/
theorem frontend_root_read_or_decode_failure_witness :
    feBrokenBody.Do = .ok { StatusCode := 200, Body := bodyBroken } ∧
    bodyBroken.err = some ⟨lit "unexpected EOF"⟩ ∧ reqGet.Method ≠ lit "HEAD" ∧
    (frontendRootReply feBrokenBody reqGet).status = 500 ∧
    (frontendRootReply feBrokenBody reqGet).body = lit "Error: unexpected EOF\n" :=
  have h := frontend_root_read_or_decode_failure feBrokenBody reqGet 200 bodyBroken
    ⟨lit "unexpected EOF"⟩ rfl (Or.inl rfl)
  ⟨rfl, rfl, by decide, h.1, (h.2.1 (by decide)).trans (by decide)⟩

/-- C7, as stated, at a HEAD request: the outbound call succeeds, the body is
read and deserializes to a snapshot, the reply has status 200, but net/http
sends no body for HEAD, so the body is not the rendering of the template. -/
theorem head_success_has_no_body :
    feBoom.Do = .ok { StatusCode := 404, Body := bodyBoom } ∧
    bodyBoom.err = none ∧
    feBoom.Unmarshal bodyBoom.data {} = (snapBoom, none) ∧
    frontendRootReply feBoom reqHead = { status := 200, body := [] } ∧
    (frontendRootReply feBoom reqHead).body ≠ feBoom.tpl.render snapBoom := by
  refine ⟨rfl, rfl, by decide, by decide, by decide⟩

/-- C7 (amended): when the outbound call succeeds, with any backend status
code, the body is read in full and deserializes to a snapshot `s` (whatever
its `Error` field holds), the frontend `/` handler executes the template and
answers 200, which is not a 5xx status.  For every request whose method is
not HEAD the body is exactly the text the template produces for `s`; for a
HEAD request no body is sent. -/
theorem frontend_root_success (env : Frontend) (r : Request) (code : Nat)
    (body : ReadCloser) (s : Instance)
    (hdo : env.Do = .ok { StatusCode := code, Body := body })
    (hread : body.err = none)
    (hdec : env.Unmarshal body.data {} = (s, none)) :
    (frontendRootReply env r).status = 200 ∧
    ¬ (500 ≤ (frontendRootReply env r).status) ∧
    (r.Method ≠ lit "HEAD" → (frontendRootReply env r).body = env.tpl.render s) ∧
    (r.Method = lit "HEAD" → (frontendRootReply env r).body = []) ∧
    Call.Execute ∈ frontendRootCalls env r := by
  obtain ⟨hreply, hcalls⟩ := frontendRoot_ok env r code body s hdo hread hdec
  rw [hreply, hcalls]
  refine ⟨rfl, ?_, ?_, ?_, by simp⟩
  · show ¬ (500 ≤ 200)
    decide
  · intro hm
    simp [hm]
  · intro hm
    simp [hm]

/-- Witness of `frontend_root_success`: on a GET request the backend answers
404 with a snapshot whose `Error` is `boom`; the page is served with status
200 and shows `boom`. -/
theorem frontend_root_success_witness :
    feBoom.Do = .ok { StatusCode := 404, Body := bodyBoom } ∧
    feBoom.Unmarshal bodyBoom.data {} = (snapBoom, none) ∧ reqGet.Method ≠ lit "HEAD" ∧
    (frontendRootReply feBoom reqGet).status = 200 ∧
    (frontendRootReply feBoom reqGet).body = lit "<h1>Backend</h1>vm-1boom" :=
  have h := frontend_root_success feBoom reqGet 404 bodyBoom snapBoom rfl rfl (by decide)
  ⟨rfl, by decide, by decide, h.1, (h.2.2.1 (by decide)).trans (by decide)⟩

/-- C8, as stated, at a HEAD request: the outbound call fails, the reply has
status 503, but net/http sends no body for HEAD, so there is no message
body. -/
theorem head_healthz_failure_has_no_body :
    feUnreachable.Do = .error errRefused ∧
    frontendHealthzReply feUnreachable reqHead = { status := 503, body := [] } := by
  refine ⟨rfl, by decide⟩

/-- C8 (amended): the frontend `/healthz` handler answers 503 exactly when
the outbound call fails at the transport level, and 200 otherwise, whatever
the backend status code and whatever the backend body (readable or not).
With 503 goes a message naming the error for every request whose method is
not HEAD, and no body for a HEAD request; with 200 the body is empty, so the
backend body never appears in the reply. -/
theorem frontend_healthz_reachability (env : Frontend) (r : Request) :
    ((frontendHealthzReply env r).status = 503 ↔ ∃ e, env.Do = .error e) ∧
    (∀ e, env.Do = .error e →
      (frontendHealthzReply env r).status = 503 ∧
      (r.Method ≠ lit "HEAD" →
        (frontendHealthzReply env r).body =
          lit "Backend could not be connected to: " ++ e.msg) ∧
      (r.Method = lit "HEAD" → (frontendHealthzReply env r).body = [])) ∧
    (∀ (code : Nat) (body : ReadCloser), env.Do = .ok { StatusCode := code, Body := body } →
      frontendHealthzReply env r = { status := 200, body := [] }) := by
  refine ⟨?_, ?_, ?_⟩
  · rcases hdo : env.Do with e | resp
    · rw [frontendHealthz_do_error env r e hdo]
      exact ⟨fun _ => ⟨e, rfl⟩, fun _ => rfl⟩
    · rw [frontendHealthz_do_ok env r resp hdo]
      constructor
      · intro h
        exact absurd h (by decide)
      · rintro ⟨e, he⟩
        cases he
  · intro e he
    rw [frontendHealthz_do_error env r e he]
    refine ⟨rfl, ?_, ?_⟩
    · intro hm
      simp [hm]
    · intro hm
      simp [hm]
  · intro code body hdo
    exact frontendHealthz_do_ok env r _ hdo

/-- Witness of `frontend_healthz_reachability`: on a GET request, a backend
that answers 404 with a snapshot carrying an error is healthy; an unreachable
one is not. -/
theorem frontend_healthz_reachability_witness :
    frontendHealthzReply feBoom reqGet = { status := 200, body := [] } ∧
    (frontendHealthzReply feUnreachable reqGet).status = 503 ∧
    (frontendHealthzReply feUnreachable reqGet).body =
      lit "Backend could not be connected to: dial tcp 127.0.0.1:8081: connection refused" :=
  have h := frontend_healthz_reachability feUnreachable reqGet
  ⟨(frontend_healthz_reachability feBoom reqGet).2.2 404 bodyBoom rfl,
    (h.2.1 errRefused rfl).1, ((h.2.1 errRefused rfl).2.1 (by decide)).trans (by decide)⟩

/-! ## The backend handler -/

/-- C9, as stated, at two requests.  For `POST /submit` with a body that
breaks off while it is dumped, `DumpRequest` returns an error and no bytes,
the handler discards the error, the reply is 200 and deserializes to the
snapshot that was serialized, but its `LBRequest` is empty and contains
neither the method nor the path of the request.  For `HEAD /` the reply is
200 with no body at all, so the body is not the serialization of the
snapshot. -/
theorem backend_root_dump_failure :
    DumpRequest beOk.dumpRest reqTruncated = ([], some ⟨lit "unexpected EOF"⟩) ∧
    (backendRootReply beOk reqTruncated).status = 200 ∧
    sampleUnmarshal (backendRootReply beOk reqTruncated).body {} =
      (backendMode_snapshot beOk reqTruncated, none) ∧
    (sampleUnmarshal (backendRootReply beOk reqTruncated).body {}).1.LBRequest = [] ∧
    ¬ Contains (sampleUnmarshal (backendRootReply beOk reqTruncated).body {}).1.LBRequest
        reqTruncated.Method ∧
    ¬ Contains (sampleUnmarshal (backendRootReply beOk reqTruncated).body {}).1.LBRequest
        reqTruncated.RequestURI ∧
    backendRootReply beOk reqHead = { status := 200, body := [] } ∧
    (backendRootReply beOk reqHead).body ≠ (beOk.Marshal (backendMode_snapshot beOk reqHead)).1 := by
  refine ⟨by decide, by decide, by decide, by decide, by decide, by decide, by decide,
    by decide⟩

/-- C9 (amended): for every request and every provider state the backend `/`
handler answers 200.  For every request whose method is not HEAD the body is
what `json.Marshal` returns for the snapshot built by `newInstance` with
`LBRequest` set to the bytes `DumpRequest` returned, its error discarded; for
a HEAD request no body is sent.  In that serialized snapshot every other
field equals the builder's value (`ClientIP` empty); `LBRequest` contains the
exact method and request URI of the request when `DumpRequest` succeeded, and
is empty when it failed.  Whenever deserializing the body of a non-HEAD
request gives back the serialized snapshot, the deserialized body has the
same properties. -/
theorem backend_root_reply (env : Backend) (r : Request) :
    (backendRootReply env r).status = 200 ∧
    (r.Method ≠ lit "HEAD" →
      (backendRootReply env r).body = (env.Marshal (backendMode_snapshot env r)).1) ∧
    (r.Method = lit "HEAD" → (backendRootReply env r).body = []) ∧
    backendMode_snapshot env r =
      { newInstance env.md with LBRequest := (DumpRequest env.dumpRest r).1 } ∧
    AgreesWithBuilder (backendMode_snapshot env r) (newInstance env.md) ∧
    ((DumpRequest env.dumpRest r).2 = none →
      Contains (backendMode_snapshot env r).LBRequest r.Method ∧
      Contains (backendMode_snapshot env r).LBRequest r.RequestURI) ∧
    ((DumpRequest env.dumpRest r).2 ≠ none → (backendMode_snapshot env r).LBRequest = []) ∧
    (∀ Unmarshal : GoString → Instance → Instance × Option GoError,
      r.Method ≠ lit "HEAD" →
      Unmarshal (env.Marshal (backendMode_snapshot env r)).1 {} =
        (backendMode_snapshot env r, none) →
      AgreesWithBuilder (Unmarshal (backendRootReply env r).body {}).1 (newInstance env.md) ∧
      ((DumpRequest env.dumpRest r).2 = none →
        Contains (Unmarshal (backendRootReply env r).body {}).1.LBRequest r.Method ∧
        Contains (Unmarshal (backendRootReply env r).body {}).1.LBRequest r.RequestURI) ∧
      ((DumpRequest env.dumpRest r).2 ≠ none →
        (Unmarshal (backendRootReply env r).body {}).1.LBRequest = [])) := by
  have hsnap : backendMode_snapshot env r =
      { newInstance env.md with LBRequest := (DumpRequest env.dumpRest r).1 } := rfl
  have hlb : (backendMode_snapshot env r).LBRequest = (DumpRequest env.dumpRest r).1 := rfl
  have hagree : AgreesWithBuilder (backendMode_snapshot env r) (newInstance env.md) :=
    ⟨rfl, rfl, rfl, rfl, rfl, rfl, rfl, rfl, (newInstance_untouched env.md).2⟩
  have hcont : (DumpRequest env.dumpRest r).2 = none →
      Contains (backendMode_snapshot env r).LBRequest r.Method ∧
      Contains (backendMode_snapshot env r).LBRequest r.RequestURI := by
    intro hd
    rw [hlb]
    exact dumpRequest_contains env.dumpRest r hd
  have hfail : (DumpRequest env.dumpRest r).2 ≠ none →
      (backendMode_snapshot env r).LBRequest = [] := by
    intro hd
    rw [hlb]
    exact dumpRequest_failed env.dumpRest r hd
  have hbody : r.Method ≠ lit "HEAD" →
      (backendRootReply env r).body = (env.Marshal (backendMode_snapshot env r)).1 := by
    intro hm
    rw [backendRoot_closed]
    simp [hm]
  refine ⟨?_, hbody, ?_, hsnap, hagree, hcont, hfail, ?_⟩
  · rw [backendRoot_closed]
  · intro hm
    rw [backendRoot_closed]
    simp [hm]
  · intro Unmarshal hm hrt
    rw [hbody hm, hrt]
    exact ⟨hagree, hcont, hfail⟩

/-- Witness of `backend_root_reply`: `GET /` on a backend on the platform,
decoded with the sample deserializer. -/
theorem backend_root_reply_witness :
    reqGet.Method ≠ lit "HEAD" ∧
    (DumpRequest beOk.dumpRest reqGet).2 = none ∧
    sampleUnmarshal (beOk.Marshal (backendMode_snapshot beOk reqGet)).1 {} =
      (backendMode_snapshot beOk reqGet, none) ∧
    (backendRootReply beOk reqGet).status = 200 ∧
    Contains (sampleUnmarshal (backendRootReply beOk reqGet).body {}).1.LBRequest (lit "GET") ∧
    Contains (sampleUnmarshal (backendRootReply beOk reqGet).body {}).1.LBRequest (lit "/") :=
  have h := backend_root_reply beOk reqGet
  have hd := (h.2.2.2.2.2.2.2 sampleUnmarshal (by decide) (by decide)).2.1 rfl
  ⟨by decide, rfl, by decide, h.1, hd.1, hd.2⟩

end Gceme
